import Mathlib

/-!
Verification development for the pollpulse-tn ingestion/processing pipeline.

The Python sources are shallowly embedded below:
* `src/infra/resilience.py` — `CircuitBreaker`, `AdaptiveRateLimiter`
* `src/infra/quality.py` — `passes_video_quality_filter`
* `src/infra/data_manager.py` — `DataSystem.save_raw_json`
* `src/processor.py` — the consumer core: `detect_location`, `detect_alliance`,
  `compute_weighted_sentiment`, `calculate_sentiment_score`,
  `upsert_constituency_prediction`, `persist_predictions`, `process_job`

Python floats are modelled as `ℚ` (all constants in the source are decimal
literals, so arithmetic is exact), Python lists as `List`, dictionaries keyed
by strings as association lists, and fallible externals (the Supabase client,
the HuggingFace classifier, `hashlib.md5`) as explicit parameters.  Python
truthiness of a string/list/float is modelled as non-emptiness/non-zeroness
where the source relies on it.
-/

namespace PollPulse

/-! ### String primitives

The source manipulates Python strings with `.lower()`, slicing, substring
tests (`x in y`) and `sorted(...)`.  These are embedded as operations on the
underlying character lists so that they evaluate inside the kernel.
-/

/-- Python `s.lower()` (code-point wise, as `str.lower` on the source's ASCII
keyword data). -/
def strLower (s : String) : String := ⟨s.data.map Char.toLower⟩

/-- Python `s[:n]`. -/
def strTake (s : String) (n : ℕ) : String := ⟨s.data.take n⟩

/-- Python `pat in hay` (substring test). -/
def strContains (hay pat : String) : Bool := decide (pat.data <:+: hay.data)

/-- Code-point lexicographic `≤` on character lists, the order Python's
`sorted` uses on strings. -/
def strLeB : List Char → List Char → Bool
  | [], _ => true
  | _ :: _, [] => false
  | a :: as, b :: bs =>
    if a.toNat < b.toNat then true
    else if b.toNat < a.toNat then false
    else strLeB as bs

/-- Code-point lexicographic `≤` on strings. -/
def strLe (a b : String) : Bool := strLeB a.data b.data

/-- Insertion step of the sort used to model Python `sorted`. -/
def insertStr (x : String) : List String → List String
  | [] => [x]
  | y :: ys => if strLe x y then x :: y :: ys else y :: insertStr x ys

/-- Model of Python `sorted(xs)` on strings (insertion sort; stable and
produces the code-point ascending order). -/
def sortStr : List String → List String
  | [] => []
  | x :: xs => insertStr x (sortStr xs)

/-- Model of Python `sorted(list(set(xs)))`: remove duplicates, then sort. -/
def sortedDedup (xs : List String) : List String := sortStr xs.eraseDups

/-! ### Rounding

Python's builtin `round(x, 4)` rounds to the nearest multiple of `10⁻⁴`,
ties to even. -/

/-- Round a rational to the nearest integer, ties to even
(Python's `round(·, 0)` rule). -/
def roundHalfEvenZ (q : ℚ) : ℤ :=
  let n := ⌊q⌋
  let frac := q - n
  if frac < 1/2 then n
  else if 1/2 < frac then n + 1
  else if n % 2 = 0 then n else n + 1

/-- Python `round(q, 4)`. -/
def pyRound4 (q : ℚ) : ℚ := (roundHalfEvenZ (q * 10000) : ℚ) / 10000

/-! ### CircuitBreaker (`src/infra/resilience.py`, lines 17–79)

The wall clock (`time.time()`) is passed explicitly to the operations that
read it.  `last_failure_time` is `Option ℚ` (`None` initially); the source
guard `if self.last_failure_time and ...` tests Python truthiness, which is
falsity of `None` and of `0.0`, modelled below. -/

inductive CBState where
  | CLOSED
  | OPEN
  | HALF_OPEN
deriving DecidableEq, Repr

structure CircuitBreaker where
  failure_threshold : ℕ
  reset_timeout : ℚ
  failures : ℕ
  last_failure_time : Option ℚ
  state : CBState
  success_count_in_half_open : ℕ
  half_open_success_threshold : ℕ
deriving DecidableEq, Repr

namespace CircuitBreaker

/-- `CircuitBreaker.__init__` (the source defaults are
`failure_threshold=5`, `reset_timeout=300`, `half_open_success_threshold=2`). -/
def init (failure_threshold : ℕ) (reset_timeout : ℚ) : CircuitBreaker :=
  { failure_threshold := failure_threshold
    reset_timeout := reset_timeout
    failures := 0
    last_failure_time := none
    state := .CLOSED
    success_count_in_half_open := 0
    half_open_success_threshold := 2 }

/-- `CircuitBreaker.can_execute`, at wall-clock time `now`; returns the
boolean result and the (possibly transitioned) breaker. -/
def canExecute (now : ℚ) (cb : CircuitBreaker) : Bool × CircuitBreaker :=
  match cb.state with
  | .CLOSED => (true, cb)
  | .OPEN =>
    match cb.last_failure_time with
    | some t =>
      if t ≠ 0 ∧ now - t > cb.reset_timeout then
        (true, { cb with state := .HALF_OPEN, success_count_in_half_open := 0 })
      else (false, cb)
    | none => (false, cb)
  | .HALF_OPEN => (true, cb)

/-- `CircuitBreaker.record_success`. -/
def recordSuccess (cb : CircuitBreaker) : CircuitBreaker :=
  if cb.state = .HALF_OPEN then
    let c := cb.success_count_in_half_open + 1
    if c ≥ cb.half_open_success_threshold then
      { cb with state := .CLOSED, failures := 0, success_count_in_half_open := c }
    else { cb with success_count_in_half_open := c }
  else { cb with failures := 0 }

/-- `CircuitBreaker.record_failure`, at wall-clock time `now`. -/
def recordFailure (now : ℚ) (cb : CircuitBreaker) : CircuitBreaker :=
  let cb' := { cb with failures := cb.failures + 1, last_failure_time := some now }
  if cb'.state = .HALF_OPEN then { cb' with state := .OPEN }
  else if cb'.failures ≥ cb'.failure_threshold then { cb' with state := .OPEN }
  else cb'

/-- A sequence of `record_failure` calls at the given wall-clock times. -/
def applyFailures (ts : List ℚ) (cb : CircuitBreaker) : CircuitBreaker :=
  ts.foldl (fun c t => recordFailure t c) cb

/-- A run of `n` consecutive `record_success` calls. -/
def applySuccesses (n : ℕ) (cb : CircuitBreaker) : CircuitBreaker :=
  recordSuccess^[n] cb

end CircuitBreaker

/-! ### AdaptiveRateLimiter (`src/infra/resilience.py`, lines 87–123) -/

structure AdaptiveRateLimiter where
  base_delay : ℚ
  current_delay : ℚ
  max_delay : ℚ
  consecutive_successes : ℕ
  success_threshold_for_decrease : ℕ
deriving DecidableEq, Repr

namespace AdaptiveRateLimiter

/-- `AdaptiveRateLimiter.__init__` (source defaults `base_delay=2.0`,
`max_delay=60.0`, `success_threshold_for_decrease=5`). -/
def init (base_delay max_delay : ℚ) : AdaptiveRateLimiter :=
  { base_delay := base_delay
    current_delay := base_delay
    max_delay := max_delay
    consecutive_successes := 0
    success_threshold_for_decrease := 5 }

/-- `AdaptiveRateLimiter.handle_response`. -/
def handleResponse (r : AdaptiveRateLimiter) (status : ℕ) : AdaptiveRateLimiter :=
  if status = 429 then
    { r with current_delay := min (r.current_delay * 2) r.max_delay
             consecutive_successes := 0 }
  else if status = 503 then
    { r with current_delay := min (r.current_delay * (3/2)) r.max_delay
             consecutive_successes := 0 }
  else if 200 ≤ status ∧ status < 300 then
    let c := r.consecutive_successes + 1
    if c ≥ r.success_threshold_for_decrease then
      { r with current_delay := max r.base_delay (r.current_delay * (9/10))
               consecutive_successes := 0 }
    else { r with consecutive_successes := c }
  else r

/-- A run of responses fed to `handle_response` in order. -/
def handleAll (r : AdaptiveRateLimiter) (statuses : List ℕ) : AdaptiveRateLimiter :=
  statuses.foldl handleResponse r

end AdaptiveRateLimiter

/-! ### Video quality pre-filter (`src/infra/quality.py`, lines 17–98)

Only the fields `passes_video_quality_filter` reads are modelled.  View
counts and durations are integers in the scraped data. -/

structure VideoInfo where
  title : String
  description : String
  view_count : ℕ
  duration : ℕ
deriving Repr

/-- `VIDEO_QUALITY_FILTERS["min_views"]`. -/
def min_views : ℕ := 1000

/-- `VIDEO_QUALITY_FILTERS["min_duration_seconds"]`. -/
def min_duration_seconds : ℕ := 60

/-- `VIDEO_QUALITY_FILTERS["max_duration_seconds"]`. -/
def max_duration_seconds : ℕ := 7200

/-- `VIDEO_QUALITY_FILTERS["blocked_keywords"]`. -/
def blocked_keywords : List String :=
  ["whatsapp status", "ringtone", "shorts", "compilation",
   "old speech", "throwback", "2021", "2020", "2019", "2018",
   "best moments", "tik tok", "tiktok", "reels", "memes",
   "comedy", "funny", "prank", "reaction video"]

/-- The blocked-keyword loop of `passes_video_quality_filter`: for each
keyword in order, test the lowered title, then the first 500 characters of
the lowered description; the first hit produces the rejection reason. -/
def checkBlocked (title desc500 : String) : List String → Option String
  | [] => none
  | b :: bs =>
    if strContains title (strLower b) then
      some ("Blocked keyword: " ++ b)
    else if strContains desc500 (strLower b) then
      some ("Blocked keyword in description: " ++ b)
    else checkBlocked title desc500 bs

/-- `passes_video_quality_filter(video) -> (bool, reason)`.  Note the source
guards the view-count floor by `views > 0` and the duration floor/ceiling by
`duration > 0`: items with a missing/zero view count or duration skip those
checks. -/
def passes_video_quality_filter (v : VideoInfo) : Bool × String :=
  match checkBlocked (strLower v.title) (strTake (strLower v.description) 500)
      blocked_keywords with
  | some reason => (false, reason)
  | none =>
    if v.view_count > 0 ∧ v.view_count < min_views then
      (false, "Low views: " ++ toString v.view_count)
    else if v.duration > 0 ∧ v.duration < min_duration_seconds then
      (false, "Too short: " ++ toString v.duration ++ "s")
    else if v.duration > 0 ∧ v.duration > max_duration_seconds then
      (false, "Too long: " ++ toString v.duration ++ "s")
    else (true, "PASSED")

/-! ### DataSystem.save_raw_json (`src/infra/data_manager.py`, lines 58–188)

The two external effects — the storage upload and the `job_queue` insert —
are passed in as outcomes: `Except String Unit` for each upload attempt
(`error msg` models a raised exception with message `msg`) and
`Except String (List String)` for the insert (`ok rows` models a response
whose `.data` is `rows`, each row carrying its generated id; the inserted row
is `{status: PENDING, file_path, metadata}` in the source).  The function
returns the `Optional[str]` result together with the console log lines that
distinguish its exit paths. -/

/-- The tail of `save_raw_json` after a successful upload: the `job_queue`
insert and its three exits (data present / data empty / exception). -/
def afterUpload (ins : Except String (List String)) (logs : List String) :
    Option String × List String :=
  match ins with
  | .ok rows =>
    match rows.head? with
    | some jid => (some jid, logs ++ ["[OK] Job queue entry created"])
    | none =>
      (none, logs ++ ["File uploaded to storage but job queue entry failed!"])
  | .error _ =>
    (none, logs ++
      ["WARNING: File was uploaded to storage but job was NOT queued!"])

/-- Whether a first-attempt upload error message triggers the
`file_options`/basic-upload retry. -/
def retryFileOptions (m : String) : Bool :=
  strContains m "file_options" || strContains m "unexpected keyword"

/-- Whether a first-attempt upload error message triggers the trailing-slash
retry. -/
def retryTrailingSlash (m : String) : Bool :=
  strContains m "trailing slash"

/-- `DataSystem.save_raw_json`, over the outcomes of the first upload
attempt, the (possible) retry attempt, and the queue insert. -/
def save_raw_json (u1 u2 : Except String Unit)
    (ins : Except String (List String)) : Option String × List String :=
  match u1 with
  | .ok _ => afterUpload ins ["[OK] Storage upload successful"]
  | .error msg =>
    let m := strLower msg
    if retryFileOptions m then
      match u2 with
      | .ok _ => afterUpload ins ["[OK] Storage upload successful (basic upload)"]
      | .error _ => (none, ["[FAIL] Storage upload failed"])
    else if retryTrailingSlash m then
      match u2 with
      | .ok _ => afterUpload ins ["[OK] Storage upload successful (retry)"]
      | .error _ => (none, ["[FAIL] Storage upload failed (retry)"])
    else if strContains m "bucket" &&
        (strContains m "not found" || strContains m "does not exist") then
      (none, ["[FAIL] Storage Error: bucket does not exist"])
    else if strContains m "row-level security" ||
        strContains m "violates row-level security policy" then
      (none, ["[FAIL] Storage RLS Error"])
    else (none, ["[FAIL] Storage upload failed"])

/-- Whether the upload step as a whole succeeded: the first attempt
succeeded, or its error was retryable and the retry succeeded. -/
def uploadSucceeded (u1 u2 : Except String Unit) : Bool :=
  match u1 with
  | .ok _ => true
  | .error msg =>
    let m := strLower msg
    (retryFileOptions m || retryTrailingSlash m) &&
      (match u2 with | .ok _ => true | .error _ => false)

/-! ### Content payloads (`src/processor.py`)

A payload item in `authoritative_content` / `user_comments` / `comments` is
either a dict with a `text` key (YouTube), a plain string (news scraper), or
something else (skipped by the source loops).  `quality_signals` is modelled
by the only key the consumer reads, `confidence_multiplier`. -/

inductive Item where
  | idict (text : String)
  | istr (s : String)
  | iother
deriving DecidableEq, Repr

/-- The text the source extracts from an item (`item.get('text','')` for a
dict, the item itself for a string), `none` when empty or unusable —
matching the `if not text: continue` guards. -/
def extractText : Item → Option String
  | .idict t => if t = "" then none else some t
  | .istr s => if s = "" then none else some s
  | .iother => none

structure Meta where
  id : String
  url : String
  title : String
  description : String
  source : String
  alliance : String
deriving DecidableEq, Repr

structure Payload where
  meta : Meta
  transcript : String
  authoritative_content : List Item
  user_comments : List Item
  comments : List Item
  location_override : Option (String ⊕ List String)
  quality_signals : Option ℚ
deriving DecidableEq, Repr

/-- One gazetteer entry of `config/districts.json`: district name, keyword
list, constituency list.  The gazetteer itself is external configuration
(out of scope per the spec), so it is a parameter everywhere. -/
structure District where
  name : String
  keywords : List String
  constituencies : List String
deriving DecidableEq, Repr

/-- Classifier labels: the source buckets each item by the top-scoring label
of the (external) sentiment model. -/
inductive Label where
  | positive
  | negative
  | neutral
deriving DecidableEq, Repr

/-- The external collaborators of the consumer: the sentiment classifier,
`hashlib.md5(...).hexdigest()[:16]` on a URL and on the serialized metadata,
the alliances configuration, the gazetteer, and the wall-clock timestamp
strings/latency the source stamps into rows. -/
structure Env where
  classify : String → Label
  md5_16 : String → String
  md5_meta_16 : Meta → String
  alliances : List (String × List String)
  gazetteer : List District
  nowIso : String
  latency_ms : ℚ

/-- The enable flags and knobs read from the environment at module load
(`ENABLE_DEDUPLICATION`, `ENABLE_DLQ`, `ENABLE_METRICS`,
`MAX_INFLUENCE_PER_SOURCE`, `MODEL_VERSION`). -/
structure Config where
  dedup : Bool
  dlq : Bool
  metrics : Bool
  max_influence : ℚ
  model_version : String

/-- `get_content_id(data)`: prefer `meta['id']`, else the md5 of
`meta['url']`, else the md5 of the serialized metadata. -/
def get_content_id (env : Env) (p : Payload) : String :=
  if p.meta.id ≠ "" then p.meta.id
  else if p.meta.url ≠ "" then env.md5_16 p.meta.url
  else env.md5_meta_16 p.meta

/-- `get_content_type(data)`. -/
def get_content_type (p : Payload) : String :=
  if p.meta.source = "DailyThanthi" ∨ p.meta.source = "news" then "news"
  else "youtube"

/-- `detect_alliance(data)`: trust a valid producer-declared alliance, else
keyword-match title+description, else `"Unknown"`. -/
def detect_alliance (alliances : List (String × List String)) (p : Payload) :
    String :=
  let valid := alliances.map Prod.fst
  let pa := p.meta.alliance
  if pa ≠ "" ∧ pa ≠ "Unknown" ∧ pa ∈ valid then pa
  else
    let text := strLower p.meta.title ++ " " ++ strLower p.meta.description
    match alliances.find?
        (fun e => e.2.any (fun k => strContains text (strLower k))) with
    | some e => e.1
    | none => "Unknown"

/-! ### Location detection (`src/processor.py`, lines 470–566) -/

/-- The Python-truthiness guard on `location_override`: a non-empty string
yields a singleton list, a non-empty list is returned as is, everything else
falls through to the keyword tiers. -/
def overrideResult : Option (String ⊕ List String) → Option (List String)
  | some (Sum.inl s) => if s = "" then none else some [s]
  | some (Sum.inr ls) => if ls = [] then none else some ls
  | none => none

/-- One metadata/transcript tier: the districts whose keyword list matches
the given (already lowered) text. -/
def tierMatches (gaz : List District) (text : String) : List String :=
  (gaz.filter
    (fun d => d.keywords.any (fun k => strContains text (strLower k)))).map
    (fun d => d.name)

/-- Tier 1 text: `f"{title} {description}".lower()`. -/
def metaTier (gaz : List District) (p : Payload) : List String :=
  tierMatches gaz (strLower (p.meta.title ++ " " ++ p.meta.description))

/-- Tier 2: transcript keyword match, only run when the transcript is
truthy. -/
def transcriptTier (gaz : List District) (p : Payload) : List String :=
  if p.transcript = "" then [] else tierMatches gaz (strLower p.transcript)

/-- The comment list tier 3 scans: `data.get('user_comments', []) or
data.get('comments', [])`. -/
def commentsOf (p : Payload) : List Item :=
  if p.user_comments = [] then p.comments else p.user_comments

/-- Tier 3 mention count for one district: the number of comments whose
(non-empty) text contains at least one of its keywords — each comment counts
at most once per district. -/
def mentionCount (comments : List Item) (d : District) : ℕ :=
  (comments.filter (fun c =>
    match extractText c with
    | some t => d.keywords.any (fun k => strContains (strLower t) (strLower k))
    | none => false)).length

/-- Tier 3: the districts mentioned by at least 3 distinct comments. -/
def crowdTier (gaz : List District) (comments : List Item) : List String :=
  (gaz.filter (fun d => 3 ≤ mentionCount comments d)).map (fun d => d.name)

/-- `detect_location(data)`: the strict cascade
override → metadata → transcript → comments → `["State_Wide"]`. -/
def detect_location (gaz : List District) (p : Payload) : List String :=
  match overrideResult p.location_override with
  | some r => r
  | none =>
    if gaz = [] then ["State_Wide"]
    else if metaTier gaz p ≠ [] then sortedDedup (metaTier gaz p)
    else if transcriptTier gaz p ≠ [] then sortedDedup (transcriptTier gaz p)
    else if crowdTier gaz (commentsOf p) ≠ [] then
      sortedDedup (crowdTier gaz (commentsOf p))
    else ["State_Wide"]

/-! ### Weighted sentiment (`src/processor.py`, lines 293–317 and 619–773) -/

structure SentCounts where
  positive : ℕ
  negative : ℕ
  neutral : ℕ
  total : ℕ
deriving DecidableEq, Repr

/-- The number of items of `texts` with usable non-empty text whose top
classifier label is `l`. -/
def countLabel (classify : String → Label) (l : Label) (texts : List Item) : ℕ :=
  ((texts.filterMap extractText).filter (fun s => classify s = l)).length

/-- `analyze_sentiment(texts, model)`: bucket every usable text by its top
label; `total` is the length of the input list (set before filtering in the
source). -/
def analyze_sentiment (classify : String → Label) (texts : List Item) :
    SentCounts :=
  { positive := countLabel classify .positive texts
    negative := countLabel classify .negative texts
    neutral := countLabel classify .neutral texts
    total := texts.length }

structure WeightedResult where
  weighted_positive : ℚ
  weighted_negative : ℚ
  weighted_neutral : ℚ
  total_weighted : ℚ
  positive_percentage : ℚ
  negative_percentage : ℚ
  neutral_percentage : ℚ
  authoritative : SentCounts
  user_comments : SentCounts
deriving DecidableEq, Repr

/-- `compute_weighted_sentiment(authoritative_content, user_comments, model,
authoritative_weight, user_weight)`. -/
def compute_weighted_sentiment (classify : String → Label)
    (authoritative_content user_comments : List Item)
    (authoritative_weight user_weight : ℚ) : WeightedResult :=
  let auth := analyze_sentiment classify authoritative_content
  let user := analyze_sentiment classify user_comments
  let wp := user.positive * user_weight + auth.positive * authoritative_weight
  let wn := user.negative * user_weight + auth.negative * authoritative_weight
  let wu := user.neutral * user_weight + auth.neutral * authoritative_weight
  let total := wp + wn + wu
  { weighted_positive := wp
    weighted_negative := wn
    weighted_neutral := wu
    total_weighted := total
    positive_percentage := if total > 0 then wp / total * 100 else 0
    negative_percentage := if total > 0 then wn / total * 100 else 0
    neutral_percentage := if total > 0 then wu / total * 100 else 0
    authoritative := auth
    user_comments := user }

/-- `calculate_sentiment_score(sentiment_results)`. -/
def calculate_sentiment_score (r : WeightedResult) : ℚ :=
  if r.total_weighted = 0 then 0
  else pyRound4 ((r.weighted_positive - r.weighted_negative) / r.total_weighted)

/-- `apply_influence_cap(current_score, new_delta)` — defined in the source
but called from nowhere on the persistence path. -/
def apply_influence_cap (max_influence current_score new_delta : ℚ) : ℚ :=
  current_score + max (-max_influence) (min max_influence new_delta)

/-! ### Prediction persistence (`src/processor.py`, lines 320–467)

The `constituency_predictions` table is a list of rows; the unique key is
`(constituency_name, alliance)`.  The source passes `source_id=content_id`
(never empty: `meta['id']` is only used when truthy and the md5 fallbacks are
non-empty hex), so `Option String` models the `Optional[str] = None`
parameter. -/

structure PredRow where
  constituency_name : String
  alliance : String
  district : String
  sentiment_score : ℚ
  source_count : ℕ
  source_ids : List String
  model_version : Option String
  last_updated : Option String
deriving DecidableEq, Repr

/-- The row-selection predicate of the source's
`.eq('constituency_name', ...).eq('alliance', ...)` filters. -/
def matchKey (constituency_name alliance : String) (r : PredRow) : Bool :=
  r.constituency_name == constituency_name && r.alliance == alliance

/-- The stored score for a key, if a row exists. -/
def predScore (table : List PredRow) (constituency_name alliance : String) :
    Option ℚ :=
  (table.find? (matchKey constituency_name alliance)).map
    (fun r => r.sentiment_score)

/-- The stored source ids for a key, if a row exists. -/
def predSources (table : List PredRow) (constituency_name alliance : String) :
    Option (List String) :=
  (table.find? (matchKey constituency_name alliance)).map
    (fun r => r.source_ids)

/-- The stored source count for a key, if a row exists. -/
def predCount (table : List PredRow) (constituency_name alliance : String) :
    Option ℕ :=
  (table.find? (matchKey constituency_name alliance)).map
    (fun r => r.source_count)

/-- `upsert_constituency_prediction`: moving-average update when a row for
`(constituency_name, alliance)` exists, plain insert of `current_score`
otherwise.  `nowIso` is the `last_updated` timestamp the source stamps. -/
def upsert_constituency_prediction (table : List PredRow) (nowIso : String)
    (constituency_name alliance_name : String) (current_score : ℚ)
    (is_state_wide : Bool) (source_id : Option String)
    (model_version : Option String) : List PredRow :=
  let decay_factor : ℚ := if is_state_wide then 95/100 else 9/10
  let new_factor : ℚ := if is_state_wide then 5/100 else 1/10
  match table.find? (matchKey constituency_name alliance_name) with
  | some row =>
    let new_score := pyRound4 (row.sentiment_score * decay_factor
      + current_score * new_factor)
    let updated :=
      match source_id with
      | some sid =>
        if row.source_ids.contains sid then (row.source_ids, row.source_count)
        else
          let appended := row.source_ids ++ [sid]
          (if appended.length > 100 then appended.drop (appended.length - 100)
           else appended,
           row.source_count + 1)
      | none => (row.source_ids, row.source_count)
    table.map (fun r =>
      if matchKey constituency_name alliance_name r then
        { r with
          sentiment_score := new_score
          source_count := updated.2
          last_updated := some nowIso
          source_ids := if source_id.isSome then updated.1 else r.source_ids
          model_version :=
            if model_version.isSome then model_version else r.model_version }
      else r)
  | none =>
    table ++
      [{ constituency_name := constituency_name
         alliance := alliance_name
         district := "Unknown"
         sentiment_score := current_score
         source_count := if source_id.isSome then 1 else 0
         source_ids := match source_id with | some sid => [sid] | none => []
         model_version := model_version
         last_updated := none }]

/-- `get_all_constituencies()`. -/
def get_all_constituencies (gaz : List District) : List String :=
  (gaz.map (fun d => d.constituencies)).flatten

/-- `get_constituencies_for_districts(districts)`. -/
def get_constituencies_for_districts (gaz : List District)
    (districts : List String) : List String :=
  (districts.map (fun dn =>
    match gaz.find? (fun d => d.name == dn) with
    | some d => d.constituencies
    | none => [])).flatten

/-- `persist_predictions` applied to the predictions table: skip `"Unknown"`
alliances; update all constituencies at state-wide weight when `State_Wide`
is among the locations, else the detected districts' constituencies at local
weight. -/
def persist_predictions (gaz : List District) (table : List PredRow)
    (nowIso : String) (detected_locations : List String)
    (alliance_name : String) (sentiment_score : ℚ) (source_id : Option String)
    (model_version : Option String) : List PredRow :=
  if alliance_name = "Unknown" then table
  else if detected_locations.contains "State_Wide" then
    (get_all_constituencies gaz).foldl (fun t c =>
      upsert_constituency_prediction t nowIso c alliance_name sentiment_score
        true source_id model_version) table
  else
    (get_constituencies_for_districts gaz detected_locations).foldl (fun t c =>
      upsert_constituency_prediction t nowIso c alliance_name sentiment_score
        false source_id model_version) table

/-! ### The consumer state machine (`src/processor.py`, lines 776–977)

The external stores are a `World`: the `job_queue`, the object store, the
`processed_content` dedup ledger, the predictions table, the dead-letter
queue and the metrics sink.  External calls are assumed to succeed (the
claims under verification concern the success paths; the source's
best-effort `except` arms around them only swallow store errors). -/

structure JobRow where
  id : String
  status : String
  file_path : String
deriving DecidableEq, Repr

structure ProcRow where
  content_id : String
  content_type : String
  alliance : String
  file_path : String
  sentiment_score : ℚ
  processed_at : String
deriving DecidableEq, Repr

structure DLQRow where
  original_job_id : String
  file_path : String
  error_message : String
  error_type : String
  payload : Option Payload
  retry_count : ℕ
deriving DecidableEq, Repr

structure MetricRow where
  metric_name : String
  metric_value : ℚ
  dimensions : List (String × String)
deriving DecidableEq, Repr

structure World where
  jobs : List JobRow
  storage : List (String × Payload)
  processed : List ProcRow
  predictions : List PredRow
  dlq : List DLQRow
  metrics : List MetricRow
deriving DecidableEq, Repr

/-- `DataSystem.update_job_status`. -/
def update_job_status (w : World) (job_id status : String) : World :=
  { w with jobs := w.jobs.map (fun j =>
      if j.id == job_id then { j with status := status } else j) }

/-- `is_duplicate_content`: dedup enabled and a `processed_content` row with
this `content_id` exists. -/
def is_duplicate_content (cfg : Config) (w : World) (content_id : String) :
    Bool :=
  cfg.dedup && w.processed.any (fun r => r.content_id == content_id)

/-- `mark_content_processed`: insert the dedup-ledger row (no-op when
deduplication is disabled). -/
def mark_content_processed (cfg : Config) (env : Env) (w : World)
    (content_id content_type alliance file_path : String)
    (sentiment_score : ℚ) : World :=
  if cfg.dedup then
    { w with processed := w.processed ++
        [{ content_id := content_id, content_type := content_type
           alliance := alliance, file_path := file_path
           sentiment_score := sentiment_score, processed_at := env.nowIso }] }
  else w

/-- `add_to_dlq` (no-op when the DLQ is disabled). -/
def add_to_dlq (cfg : Config) (w : World)
    (job_id file_path error_message error_type : String)
    (payload : Option Payload) : World :=
  if cfg.dlq then
    { w with dlq := w.dlq ++
        [{ original_job_id := job_id, file_path := file_path
           error_message := error_message, error_type := error_type
           payload := payload, retry_count := 0 }] }
  else w

/-- `log_metric` (no-op when metrics are disabled). -/
def log_metric (cfg : Config) (w : World) (name : String) (value : ℚ)
    (dimensions : List (String × String)) : World :=
  if cfg.metrics then
    { w with metrics := w.metrics ++
        [{ metric_name := name, metric_value := value
           dimensions := dimensions }] }
  else w

/-- The tail of `process_job` after the payload download succeeds (source
lines 835–941): content id/type and alliance, dedup-check, extraction,
location, weighted sentiment, persistence, ledger, DONE, metrics.  `w` is
the world with the job already at PROCESSING and `file_path` the job's
path. -/
def processTail (cfg : Config) (env : Env) (job_id : String) (w : World)
    (file_path : String) (data : Payload) : World × Bool :=
  let content_id := get_content_id env data
  let content_type := get_content_type data
  let alliance_name := detect_alliance env.alliances data
  if is_duplicate_content cfg w content_id then
    let w := update_job_status w job_id "DONE"
    let w := log_metric cfg w "duplicate_skipped" 1
      [("content_type", content_type)]
    (w, true)
  else
    let authoritative_content := data.authoritative_content
    let user_comments :=
      if data.user_comments = [] ∧ data.comments ≠ [] then data.comments
      else data.user_comments
    if authoritative_content = [] ∧ user_comments = [] then
      (update_job_status w job_id "DONE", true)
    else
      let _confidence_multiplier :=
        match data.quality_signals with
        | some c => c
        | none => (1 : ℚ)/2
      let detected_locations := detect_location env.gazetteer data
      let sentiment_results := compute_weighted_sentiment env.classify
        authoritative_content user_comments 3 1
      let sentiment_score := calculate_sentiment_score sentiment_results
      let w := { w with predictions := (persist_predictions env.gazetteer
        w.predictions env.nowIso detected_locations alliance_name
        sentiment_score (some content_id) (some cfg.model_version)) }
      let w := mark_content_processed cfg env w content_id content_type
        alliance_name file_path sentiment_score
      let w := update_job_status w job_id "DONE"
      let w := log_metric cfg w "processing_latency_ms" env.latency_ms
        [("content_type", content_type), ("alliance", alliance_name)]
      let w := log_metric cfg w "sentiment_score" sentiment_score
        [("content_type", content_type), ("alliance", alliance_name),
         ("content_id", content_id)]
      (w, true)

/-- `process_job(job_id, data_system, model)`: the per-job pipeline —
claim, fetch, download, then `processTail` — returning the updated world and
the boolean result. -/
def process_job (cfg : Config) (env : Env) (job_id : String) (w : World) :
    World × Bool :=
  let w := update_job_status w job_id "PROCESSING"
  match w.jobs.find? (fun j => j.id == job_id) with
  | none => (w, false)
  | some job =>
    if job.file_path = "" then (update_job_status w job_id "FAILED", false)
    else
      match w.storage.find? (fun kv => kv.1 == job.file_path) with
      | none =>
        let w := add_to_dlq cfg w job_id job.file_path
          "Failed to download file" "NETWORK" none
        (update_job_status w job_id "FAILED", false)
      | some kv =>
        processTail cfg env job_id w job.file_path kv.2

/-- The last-failure timestamp after a sequence of failures at times `ts`,
given the previous timestamp `dflt`. -/
def lastTime : List ℚ → Option ℚ → Option ℚ
  | [], dflt => dflt
  | t :: ts, _ => lastTime ts (some t)

/-- The row-update function `upsert_constituency_prediction` maps over the
table in its row-exists branch (named here so lookup lemmas can traverse
it). -/
def upsertRowUpdate (cn a : String) (new_score : ℚ) (nowIso : String)
    (new_sources : List String) (new_count : ℕ) (source_id : Option String)
    (model_version : Option String) (r : PredRow) : PredRow :=
  if matchKey cn a r then
    { r with
      sentiment_score := new_score
      source_count := new_count
      last_updated := some nowIso
      source_ids := if source_id.isSome then new_sources else r.source_ids
      model_version :=
        if model_version.isSome then model_version else r.model_version }
  else r

/-! ## Supporting lemmas -/

open CircuitBreaker AdaptiveRateLimiter

lemma applyFailures_append (ts : List ℚ) (t : ℚ) (cb : CircuitBreaker) :
    applyFailures (ts ++ [t]) cb = recordFailure t (applyFailures ts cb) := by
  simp [applyFailures, List.foldl_append]

lemma recordFailure_closed_below (cb : CircuitBreaker) (t : ℚ)
    (hs : cb.state = .CLOSED) (h : cb.failures + 1 < cb.failure_threshold) :
    recordFailure t cb =
      { cb with failures := cb.failures + 1, last_failure_time := some t } := by
  simp only [recordFailure, hs]
  rw [if_neg (by simp), if_neg (by simp; omega)]

lemma recordFailure_closed_hit (cb : CircuitBreaker) (t : ℚ)
    (hs : cb.state = .CLOSED) (h : cb.failure_threshold ≤ cb.failures + 1) :
    recordFailure t cb =
      { cb with failures := cb.failures + 1, last_failure_time := some t,
                state := .OPEN } := by
  simp only [recordFailure, hs]
  rw [if_neg (by simp), if_pos (by simpa using h)]

lemma applyFailures_closed (ts : List ℚ) : ∀ cb : CircuitBreaker,
    cb.state = .CLOSED → cb.failures + ts.length < cb.failure_threshold →
    applyFailures ts cb =
      { cb with failures := cb.failures + ts.length,
                last_failure_time := lastTime ts cb.last_failure_time } := by
  induction ts with
  | nil => intro cb _ _; simp [applyFailures, lastTime]
  | cons t ts ih =>
    intro cb hs hlt
    have hstep : recordFailure t cb =
        { cb with failures := cb.failures + 1, last_failure_time := some t } :=
      recordFailure_closed_below cb t hs (by simp at hlt; omega)
    have : applyFailures (t :: ts) cb = applyFailures ts (recordFailure t cb) := by
      simp [applyFailures]
    rw [this, hstep, ih _ (by simp [hs]) (by simp at hlt ⊢; omega)]
    simp [lastTime]
    omega

lemma recordSuccess_halfopen_below (cb : CircuitBreaker)
    (hs : cb.state = .HALF_OPEN)
    (h : cb.success_count_in_half_open + 1 < cb.half_open_success_threshold) :
    recordSuccess cb =
      { cb with success_count_in_half_open :=
          cb.success_count_in_half_open + 1 } := by
  simp only [recordSuccess, hs, if_pos]
  rw [if_neg (by omega)]

lemma recordSuccess_halfopen_hit (cb : CircuitBreaker)
    (hs : cb.state = .HALF_OPEN)
    (h : cb.half_open_success_threshold ≤ cb.success_count_in_half_open + 1) :
    recordSuccess cb =
      { cb with state := .CLOSED, failures := 0,
                success_count_in_half_open :=
                  cb.success_count_in_half_open + 1 } := by
  simp only [recordSuccess, hs, if_pos]
  rw [if_pos (by omega)]

lemma applySuccesses_halfopen : ∀ (m : ℕ) (cb : CircuitBreaker),
    cb.state = .HALF_OPEN → 1 ≤ m →
    cb.success_count_in_half_open + m = cb.half_open_success_threshold →
    (applySuccesses m cb).state = .CLOSED ∧ (applySuccesses m cb).failures = 0 := by
  intro m
  induction m with
  | zero => intro cb _ h1 _; omega
  | succ m ih =>
    intro cb hs _ hsum
    have hstep : applySuccesses (m + 1) cb = applySuccesses m (recordSuccess cb) := by
      simp [applySuccesses, Function.iterate_succ_apply]
    cases Nat.eq_zero_or_pos m with
    | inl hm =>
      subst hm
      rw [hstep]
      rw [recordSuccess_halfopen_hit cb hs (by omega)]
      simp [applySuccesses]
    | inr hm =>
      rw [hstep, recordSuccess_halfopen_below cb hs (by omega)]
      exact ih _ (by simp [hs]) hm (by simp; omega)

lemma handleResponse_2xx (r : AdaptiveRateLimiter) (s : ℕ)
    (h1 : 200 ≤ s) (h2 : s < 300) :
    handleResponse r s =
      (if r.success_threshold_for_decrease ≤ r.consecutive_successes + 1 then
        { r with current_delay := max r.base_delay (r.current_delay * (9/10)),
                 consecutive_successes := 0 }
      else { r with consecutive_successes := r.consecutive_successes + 1 }) := by
  unfold handleResponse
  rw [if_neg (by omega), if_neg (by omega), if_pos ⟨h1, h2⟩]

lemma handleAll_2xx_run (ss : List ℕ) : ∀ r : AdaptiveRateLimiter,
    (∀ s ∈ ss, 200 ≤ s ∧ s < 300) → ss ≠ [] →
    r.consecutive_successes + ss.length = r.success_threshold_for_decrease →
    handleAll r ss =
      { r with current_delay := max r.base_delay (r.current_delay * (9/10)),
               consecutive_successes := 0 } := by
  induction ss with
  | nil => intro r _ hne _; exact absurd rfl hne
  | cons s tail ih =>
    intro r hall _ hsum
    have hs := hall s (List.mem_cons_self s tail)
    have hstep : handleAll r (s :: tail) = handleAll (handleResponse r s) tail := by
      simp [handleAll]
    cases tail with
    | nil =>
      simp only [List.length_cons, List.length_nil] at hsum
      rw [hstep, handleResponse_2xx r s hs.1 hs.2, if_pos (by omega)]
      simp [handleAll]
    | cons s2 t2 =>
      rw [hstep, handleResponse_2xx r s hs.1 hs.2,
        if_neg (by simp at hsum; omega)]
      rw [ih _ (fun x hx => hall x (List.mem_cons_of_mem s hx))
        (by simp) (by simp at hsum ⊢; omega)]

/-! ## Claims -/

/-- C1: from the initial CLOSED state, `failure_threshold` consecutive
`record_failure` calls leave the breaker OPEN with the last failure time
stamped; while at most `reset_timeout` has elapsed since the last failure,
`can_execute` returns `false`; once strictly more than `reset_timeout` has
elapsed (and the stamped time is truthy), the next `can_execute` returns
`true` and moves to HALF_OPEN with the probe-success counter reset to 0;
a single `record_failure` in HALF_OPEN returns to OPEN; and
`half_open_success_threshold` consecutive `record_success` calls from a
fresh HALF_OPEN state reach CLOSED with the failure counter reset to 0. -/
theorem C1_circuit_breaker_lifecycle :
    (∀ (n : ℕ) (rto : ℚ) (ts : List ℚ) (t : ℚ), 1 ≤ n → ts.length + 1 = n →
      (applyFailures (ts ++ [t]) (CircuitBreaker.init n rto)).state = .OPEN ∧
      (applyFailures (ts ++ [t]) (CircuitBreaker.init n rto)).failures = n ∧
      (applyFailures (ts ++ [t]) (CircuitBreaker.init n rto)).last_failure_time
        = some t) ∧
    (∀ (cb : CircuitBreaker) (now t : ℚ), cb.state = .OPEN →
      cb.last_failure_time = some t → now - t ≤ cb.reset_timeout →
      canExecute now cb = (false, cb)) ∧
    (∀ (cb : CircuitBreaker) (now t : ℚ), cb.state = .OPEN →
      cb.last_failure_time = some t → t ≠ 0 → now - t > cb.reset_timeout →
      canExecute now cb =
        (true, { cb with state := .HALF_OPEN,
                         success_count_in_half_open := 0 })) ∧
    (∀ (cb : CircuitBreaker) (t : ℚ), cb.state = .HALF_OPEN →
      recordFailure t cb =
        { cb with failures := cb.failures + 1, last_failure_time := some t,
                  state := .OPEN }) ∧
    (∀ cb : CircuitBreaker, cb.state = .HALF_OPEN →
      cb.success_count_in_half_open = 0 → 1 ≤ cb.half_open_success_threshold →
      (applySuccesses cb.half_open_success_threshold cb).state = .CLOSED ∧
      (applySuccesses cb.half_open_success_threshold cb).failures = 0) := by
  refine ⟨?_, ?_, ?_, ?_, ?_⟩
  · intro n rto ts t h1 hlen
    rw [applyFailures_append,
      applyFailures_closed ts (CircuitBreaker.init n rto) rfl
        (by simp [CircuitBreaker.init]; omega)]
    rw [recordFailure_closed_hit _ t (by simp [CircuitBreaker.init])
      (by simp [CircuitBreaker.init]; omega)]
    refine ⟨rfl, ?_, rfl⟩
    show (CircuitBreaker.init n rto).failures + ts.length + 1 = n
    simp only [CircuitBreaker.init]
    omega
  · intro cb now t hs hl hle
    simp only [canExecute, hs, hl]
    rw [if_neg (by push_neg; intro _; linarith)]
  · intro cb now t hs hl hne hgt
    simp only [canExecute, hs, hl]
    rw [if_pos ⟨hne, hgt⟩]
  · intro cb t hs
    simp only [recordFailure, hs]
    rw [if_pos (by simp)]
  · intro cb hs hc h1
    exact applySuccesses_halfopen _ cb hs h1 (by omega)

/-- C1 witness: a concrete lifecycle with `failure_threshold = 2`,
`reset_timeout = 300`, failures at times 10 and 20, a blocked probe at time
100, a granted probe at time 400, a failed probe, and a recovery with the
default `half_open_success_threshold = 2`. -/
theorem C1_circuit_breaker_lifecycle_witness :
    ((applyFailures ([10] ++ [20]) (CircuitBreaker.init 2 300)).state = .OPEN ∧
      (applyFailures ([10] ++ [20]) (CircuitBreaker.init 2 300)).failures = 2 ∧
      (applyFailures ([10] ++ [20]) (CircuitBreaker.init 2 300)).last_failure_time
        = some 20) ∧
    (canExecute 100 ⟨2, 300, 2, some 20, .OPEN, 0, 2⟩
      = (false, ⟨2, 300, 2, some 20, .OPEN, 0, 2⟩)) ∧
    (canExecute 400 ⟨2, 300, 2, some 20, .OPEN, 0, 2⟩
      = (true, ⟨2, 300, 2, some 20, .HALF_OPEN, 0, 2⟩)) ∧
    (recordFailure 500 ⟨2, 300, 2, some 20, .HALF_OPEN, 0, 2⟩
      = ⟨2, 300, 3, some 500, .OPEN, 0, 2⟩) ∧
    ((applySuccesses 2 ⟨2, 300, 2, some 20, .HALF_OPEN, 0, 2⟩).state = .CLOSED ∧
      (applySuccesses 2 ⟨2, 300, 2, some 20, .HALF_OPEN, 0, 2⟩).failures = 0) := by
  refine ⟨C1_circuit_breaker_lifecycle.1 2 300 [10] 20 (by norm_num) (by simp),
    C1_circuit_breaker_lifecycle.2.1 _ 100 20 rfl rfl (by norm_num),
    C1_circuit_breaker_lifecycle.2.2.1 _ 400 20 rfl rfl (by norm_num)
      (by norm_num),
    C1_circuit_breaker_lifecycle.2.2.2.1 _ 500 rfl,
    C1_circuit_breaker_lifecycle.2.2.2.2 ⟨2, 300, 2, some 20, .HALF_OPEN, 0, 2⟩
      rfl rfl (by norm_num)⟩

/-- C7: `handle_response(429)` sets the delay to `min(2·d, max_delay)` and
zeroes the consecutive-success counter; and from a state with a zeroed
counter, a positive threshold and delay `d > base_delay`, a run of
`success_threshold` consecutive 2xx responses sets the delay to
`max(base_delay, 0.9·d)` (and re-zeroes the counter). -/
theorem C7_adaptive_rate_limiter :
    (∀ r : AdaptiveRateLimiter,
      (handleResponse r 429).current_delay
          = min (2 * r.current_delay) r.max_delay ∧
      (handleResponse r 429).consecutive_successes = 0) ∧
    (∀ (r : AdaptiveRateLimiter) (ss : List ℕ),
      (∀ s ∈ ss, 200 ≤ s ∧ s < 300) →
      ss.length = r.success_threshold_for_decrease →
      r.consecutive_successes = 0 →
      1 ≤ r.success_threshold_for_decrease →
      r.base_delay < r.current_delay →
      handleAll r ss
        = { r with
            current_delay := max r.base_delay (r.current_delay * (9/10)),
            consecutive_successes := 0 }) := by
  constructor
  · intro r
    constructor
    · simp [handleResponse, mul_comm]
    · simp [handleResponse]
  · intro r ss hall hlen hzero hpos _
    exact handleAll_2xx_run ss r hall (by intro h; rw [h] at hlen; simp at hlen; omega)
      (by omega)

/-- Helper for C2/C5: updating rows pointwise with a key-preserving function
commutes with row lookup. -/
lemma find?_map_key (table : List PredRow) (cn a : String)
    (f : PredRow → PredRow)
    (hf : ∀ r, (f r).constituency_name = r.constituency_name ∧
      (f r).alliance = r.alliance) :
    (table.map f).find? (matchKey cn a) =
      (table.find? (matchKey cn a)).map f := by
  rw [List.find?_map]
  have : matchKey cn a ∘ f = matchKey cn a := by
    funext r
    simp [matchKey, (hf r).1, (hf r).2]
  rw [this]

lemma upsertRowUpdate_key (cn a : String) (ns : ℚ) (ni : String)
    (nsrc : List String) (nc : ℕ) (sid mv : Option String) (r : PredRow) :
    (upsertRowUpdate cn a ns ni nsrc nc sid mv r).constituency_name
        = r.constituency_name ∧
      (upsertRowUpdate cn a ns ni nsrc nc sid mv r).alliance = r.alliance := by
  unfold upsertRowUpdate
  by_cases h : matchKey cn a r = true <;> simp [h]

/-- `upsert_constituency_prediction` in the row-exists branch, written via
`upsertRowUpdate`. -/
lemma upsert_existing (table : List PredRow) (nowIso cn a : String)
    (cur : ℚ) (sw : Bool) (sid mv : Option String) (row : PredRow)
    (hfind : table.find? (matchKey cn a) = some row) :
    upsert_constituency_prediction table nowIso cn a cur sw sid mv =
      table.map (upsertRowUpdate cn a
        (pyRound4 (row.sentiment_score * (if sw then 95/100 else 9/10)
          + cur * (if sw then 5/100 else 1/10)))
        nowIso
        (match sid with
         | some s =>
           if row.source_ids.contains s then row.source_ids
           else if (row.source_ids ++ [s]).length > 100 then
             (row.source_ids ++ [s]).drop ((row.source_ids ++ [s]).length - 100)
           else row.source_ids ++ [s]
         | none => row.source_ids)
        (match sid with
         | some s =>
           if row.source_ids.contains s then row.source_count
           else row.source_count + 1
         | none => row.source_count)
        sid mv) := by
  simp only [upsert_constituency_prediction, hfind, upsertRowUpdate]
  cases sid with
  | none => rfl
  | some s =>
    simp only [List.map_inj_left]
    intro r _
    by_cases hk : matchKey cn a r = true
    · by_cases hc : s ∈ row.source_ids <;>
        simp [upsertRowUpdate, hk, hc]
    · simp [upsertRowUpdate, hk]

/-- C2: when a `(constituency_name, alliance)` row exists with stored score
`old`, the upserted score is `round(old·0.95 + cur·0.05, 4)` for a
state-wide update and `round(old·0.9 + cur·0.1, 4)` otherwise; when no row
exists, the stored score is `cur` itself, with no decay. -/
theorem C2_moving_average_persistence :
    (∀ (table : List PredRow) (nowIso cn a : String) (cur : ℚ) (sw : Bool)
       (sid mv : Option String) (row : PredRow),
      table.find? (matchKey cn a) = some row →
      predScore (upsert_constituency_prediction table nowIso cn a cur sw sid mv)
          cn a
        = some (pyRound4 (row.sentiment_score * (if sw then 95/100 else 9/10)
            + cur * (if sw then 5/100 else 1/10)))) ∧
    (∀ (table : List PredRow) (nowIso cn a : String) (cur : ℚ) (sw : Bool)
       (sid mv : Option String),
      table.find? (matchKey cn a) = none →
      predScore (upsert_constituency_prediction table nowIso cn a cur sw sid mv)
          cn a = some cur) := by
  constructor
  · intro table nowIso cn a cur sw sid mv row hfind
    rw [upsert_existing table nowIso cn a cur sw sid mv row hfind]
    unfold predScore
    rw [find?_map_key _ _ _ _ (upsertRowUpdate_key cn a _ _ _ _ sid mv), hfind]
    have hrow : matchKey cn a row = true := List.find?_some hfind
    simp [upsertRowUpdate, hrow]
  · intro table nowIso cn a cur sw sid mv hfind
    unfold upsert_constituency_prediction
    rw [hfind]
    unfold predScore
    rw [List.find?_append, hfind]
    simp [matchKey]

/-- C2 witness: old score 0.2, current score 0.8 — a non-state-wide update
stores 0.26, a state-wide update stores 0.23, and on an empty table the row
is created with 0.8 directly. -/
theorem C2_moving_average_persistence_witness :
    predScore (upsert_constituency_prediction
        [⟨"Madurai_East", "DMK_Front", "Madurai", 2/10, 1, ["a"], none, none⟩]
        "t0" "Madurai_East" "DMK_Front" (8/10) false (some "b") (some "v1"))
        "Madurai_East" "DMK_Front" = some (26/100) ∧
    predScore (upsert_constituency_prediction
        [⟨"Madurai_East", "DMK_Front", "Madurai", 2/10, 1, ["a"], none, none⟩]
        "t0" "Madurai_East" "DMK_Front" (8/10) true (some "b") (some "v1"))
        "Madurai_East" "DMK_Front" = some (23/100) ∧
    predScore (upsert_constituency_prediction [] "t0" "Madurai_East"
        "DMK_Front" (8/10) false (some "b") none)
        "Madurai_East" "DMK_Front" = some (8/10) := by
  refine ⟨?_, ?_, ?_⟩
  · rw [C2_moving_average_persistence.1
      [⟨"Madurai_East", "DMK_Front", "Madurai", 2/10, 1, ["a"], none, none⟩]
      "t0" "Madurai_East" "DMK_Front" (8/10) false (some "b") (some "v1")
      ⟨"Madurai_East", "DMK_Front", "Madurai", 2/10, 1, ["a"], none, none⟩
      rfl]
    norm_num [pyRound4, roundHalfEvenZ]
  · rw [C2_moving_average_persistence.1
      [⟨"Madurai_East", "DMK_Front", "Madurai", 2/10, 1, ["a"], none, none⟩]
      "t0" "Madurai_East" "DMK_Front" (8/10) true (some "b") (some "v1")
      ⟨"Madurai_East", "DMK_Front", "Madurai", 2/10, 1, ["a"], none, none⟩
      rfl]
    norm_num [pyRound4, roundHalfEvenZ]
  · exact C2_moving_average_persistence.2 [] "t0" _ _ (8/10) false (some "b")
      none rfl

/-- C5 counterexample: updating an existing row whose stored ids are
`["old"]` with a new source id `"new"` stores `["old", "new"]` — the most
recent id is at the tail, so the stored list is not kept most-recent-first
as the claim states. -/
theorem C5_source_ids_counterexample :
    predSources (upsert_constituency_prediction
        [⟨"X", "A", "Unknown", 0, 1, ["old"], none, none⟩]
        "t0" "X" "A" 0 false (some "new") none) "X" "A"
      = some ["old", "new"] ∧
    ["old", "new"].head? ≠ some "new" := by
  constructor
  · rfl
  · simp

/-- C5 (amended): updating an existing row with `source_id = sid` keeps
`source_ids` a duplicate-free list of at most 100 ids ordered oldest-first
with the most recent id at the tail; on overflow the oldest entries are
dropped from the front so the most recent 100 are retained; `sid` is a
member after the update; and `source_count` increments exactly when `sid`
was not already present. -/
theorem C5_source_ids_lineage :
    ∀ (table : List PredRow) (nowIso cn a : String) (cur : ℚ) (sw : Bool)
      (sid : String) (mv : Option String) (row : PredRow),
      table.find? (matchKey cn a) = some row →
      row.source_ids.Nodup → row.source_ids.length ≤ 100 →
      ∃ l,
        predSources (upsert_constituency_prediction table nowIso cn a cur sw
            (some sid) mv) cn a = some l ∧
        l.Nodup ∧ l.length ≤ 100 ∧ sid ∈ l ∧
        (sid ∈ row.source_ids →
          l = row.source_ids ∧
          predCount (upsert_constituency_prediction table nowIso cn a cur sw
              (some sid) mv) cn a = some row.source_count) ∧
        (sid ∉ row.source_ids →
          l = row.source_ids.drop (row.source_ids.length + 1 - 100) ++ [sid] ∧
          predCount (upsert_constituency_prediction table nowIso cn a cur sw
              (some sid) mv) cn a = some (row.source_count + 1)) := by
  intro table nowIso cn a cur sw sid mv row hfind hnd hlen
  rw [upsert_existing table nowIso cn a cur sw (some sid) mv row hfind]
  unfold predSources predCount
  rw [find?_map_key _ _ _ _ (upsertRowUpdate_key cn a _ _ _ _ (some sid) mv),
    hfind]
  have hrow : matchKey cn a row = true := List.find?_some hfind
  by_cases hmem : sid ∈ row.source_ids
  · refine ⟨row.source_ids, ?_, hnd, hlen, hmem, fun _ => ⟨rfl, ?_⟩,
      fun hn => absurd hmem hn⟩
    · simp [upsertRowUpdate, hrow, hmem]
    · simp [upsertRowUpdate, hrow, hmem]
  · by_cases hbig : row.source_ids.length + 1 > 100
    · have h100 : row.source_ids.length = 100 := by omega
      refine ⟨row.source_ids.drop 1 ++ [sid], ?_, ?_, ?_, ?_,
        fun hy => absurd hy hmem, fun _ => ⟨?_, ?_⟩⟩
      · simp [upsertRowUpdate, hrow, hmem, hbig]
        rw [h100]
        rw [show (100 : ℕ) - 99 = 1 from rfl]
        rw [List.drop_append_of_le_length (by omega)]
        simp [List.drop_one]
      · rw [List.nodup_append]
        refine ⟨hnd.sublist (List.drop_sublist 1 _), List.nodup_singleton sid,
          ?_⟩
        intro x hx hx2
        simp only [List.mem_singleton] at hx2
        exact hmem (hx2 ▸ List.drop_subset 1 _ hx)
      · simp [h100]
      · simp
      · rw [show row.source_ids.length + 1 - 100 = 1 by omega]
      · simp [upsertRowUpdate, hrow, hmem, hbig]
    · have hsmall : row.source_ids.length + 1 - 100 = 0 := by omega
      refine ⟨row.source_ids ++ [sid], ?_, ?_, ?_, ?_,
        fun hy => absurd hy hmem, fun _ => ⟨?_, ?_⟩⟩
      · simp [upsertRowUpdate, hrow, hmem, hbig]
      · rw [List.nodup_append]
        exact ⟨hnd, List.nodup_singleton sid, by
          intro x hx hx2
          simp only [List.mem_singleton] at hx2
          exact hmem (hx2 ▸ hx)⟩
      · simp; omega
      · simp
      · rw [hsmall, List.drop_zero]
      · simp [upsertRowUpdate, hrow, hmem, hbig]

/-- C5 witness: a row holding `["a"]` updated with source id `"b"` stores
the duplicate-free list `["a", "b"]` (`"b"` a member, at the tail) and the
source count increments from 1 to 2. -/
theorem C5_source_ids_lineage_witness :
    ∃ l,
      predSources (upsert_constituency_prediction
          [⟨"X", "A", "Unknown", 0, 1, ["a"], none, none⟩]
          "t0" "X" "A" 0 false (some "b") none) "X" "A" = some l ∧
      l.Nodup ∧ l.length ≤ 100 ∧ "b" ∈ l ∧
      ("b" ∈ ["a"] →
        l = ["a"] ∧
        predCount (upsert_constituency_prediction
            [⟨"X", "A", "Unknown", 0, 1, ["a"], none, none⟩]
            "t0" "X" "A" 0 false (some "b") none) "X" "A" = some 1) ∧
      ("b" ∉ ["a"] →
        l = List.drop (List.length ["a"] + 1 - 100) ["a"] ++ ["b"] ∧
        predCount (upsert_constituency_prediction
            [⟨"X", "A", "Unknown", 0, 1, ["a"], none, none⟩]
            "t0" "X" "A" 0 false (some "b") none) "X" "A" = some (1 + 1)) := by
  have h := C5_source_ids_lineage
    [⟨"X", "A", "Unknown", 0, 1, ["a"], none, none⟩]
    "t0" "X" "A" 0 false "b" none
    ⟨"X", "A", "Unknown", 0, 1, ["a"], none, none⟩
    rfl (by simp) (by simp)
  exact h

/-- C3: each sentiment bucket is weighted `user·1.0 + authoritative·3.0`,
and the scalar score is `round((weighted_positive − weighted_negative) /
total_weighted, 4)` when the weighted total is nonzero and `0.0` when it is
zero; two positive authoritative items and one negative user comment yield
`round(5/7, 4) = 0.7143`. -/
theorem C3_weighted_sentiment_score :
    (∀ (classify : String → Label) (auth user : List Item),
      (compute_weighted_sentiment classify auth user 3 1).weighted_positive
          = countLabel classify .positive user * 1
            + countLabel classify .positive auth * 3 ∧
      (compute_weighted_sentiment classify auth user 3 1).weighted_negative
          = countLabel classify .negative user * 1
            + countLabel classify .negative auth * 3 ∧
      (compute_weighted_sentiment classify auth user 3 1).weighted_neutral
          = countLabel classify .neutral user * 1
            + countLabel classify .neutral auth * 3 ∧
      calculate_sentiment_score (compute_weighted_sentiment classify auth user 3 1)
        = (if (compute_weighted_sentiment classify auth user 3 1).total_weighted
              = 0 then 0
           else pyRound4
            (((compute_weighted_sentiment classify auth user 3 1).weighted_positive
              - (compute_weighted_sentiment classify auth user 3 1).weighted_negative)
              / (compute_weighted_sentiment classify auth user 3 1).total_weighted))) ∧
    calculate_sentiment_score (compute_weighted_sentiment
        (fun s => if s = "bad" then .negative else .positive)
        [.istr "good one", .istr "good two"] [.idict "bad"] 3 1)
      = 7143/10000 := by
  constructor
  · intro classify auth user
    refine ⟨by simp [compute_weighted_sentiment, analyze_sentiment],
      by simp [compute_weighted_sentiment, analyze_sentiment],
      by simp [compute_weighted_sentiment, analyze_sentiment], rfl⟩
  · have ha : analyze_sentiment
        (fun s => if s = "bad" then Label.negative else Label.positive)
        [.istr "good one", .istr "good two"] = ⟨2, 0, 0, 2⟩ := by decide
    have hu : analyze_sentiment
        (fun s => if s = "bad" then Label.negative else Label.positive)
        [.idict "bad"] = ⟨0, 1, 0, 1⟩ := by decide
    simp only [compute_weighted_sentiment, ha, hu, calculate_sentiment_score]
    norm_num [pyRound4, roundHalfEvenZ]

/-- C8 counterexample: a video with view count 0 — below the configured
minimum of 1000 — passes the pre-filter, because the source only enforces
the floor when `views > 0`; so the claim that every item below the floor is
rejected is false. -/
theorem C8_quality_filter_counterexample :
    (VideoInfo.mk "t" "" 0 0).view_count < min_views ∧
    passes_video_quality_filter (VideoInfo.mk "t" "" 0 0) = (true, "PASSED") := by
  constructor
  · decide
  · rfl

/-- C8 (amended): for items with no blocked-keyword match, a *positive* view
count below the floor is rejected with a low-views reason, and a *positive*
duration below the floor or above the ceiling is rejected; items whose view
count or duration is 0 (absent) skip the corresponding check. -/
theorem C8_quality_filter_floors :
    ∀ v : VideoInfo,
      checkBlocked (strLower v.title) (strTake (strLower v.description) 500)
        blocked_keywords = none →
      (0 < v.view_count → v.view_count < min_views →
        passes_video_quality_filter v
          = (false, "Low views: " ++ toString v.view_count)) ∧
      (¬(0 < v.view_count ∧ v.view_count < min_views) →
        0 < v.duration → v.duration < min_duration_seconds →
        passes_video_quality_filter v
          = (false, "Too short: " ++ toString v.duration ++ "s")) ∧
      (¬(0 < v.view_count ∧ v.view_count < min_views) →
        0 < v.duration → max_duration_seconds < v.duration →
        passes_video_quality_filter v
          = (false, "Too long: " ++ toString v.duration ++ "s")) := by
  intro v hb
  unfold passes_video_quality_filter
  rw [hb]
  refine ⟨?_, ?_, ?_⟩
  · intro h1 h2
    rw [if_pos ⟨h1, h2⟩]
  · intro hnv hd1 hd2
    rw [if_neg hnv, if_pos ⟨hd1, hd2⟩]
  · intro hnv hd1 hd2
    rw [if_neg hnv,
      if_neg (by
        unfold min_duration_seconds
        unfold max_duration_seconds at hd2
        omega),
      if_pos ⟨hd1, hd2⟩]

/-- C8 witness: with a clean title, 500 views are rejected as low views, a
30-second video is rejected as too short, and an 8000-second video as too
long. -/
theorem C8_quality_filter_floors_witness :
    (passes_video_quality_filter (VideoInfo.mk "t" "" 500 0)
      = (false, "Low views: " ++ toString (VideoInfo.mk "t" "" 500 0).view_count)) ∧
    (passes_video_quality_filter (VideoInfo.mk "t" "" 2000 30)
      = (false, "Too short: " ++ toString (VideoInfo.mk "t" "" 2000 30).duration
          ++ "s")) ∧
    (passes_video_quality_filter (VideoInfo.mk "t" "" 2000 8000)
      = (false, "Too long: " ++ toString (VideoInfo.mk "t" "" 2000 8000).duration
          ++ "s")) :=
  ⟨(C8_quality_filter_floors (VideoInfo.mk "t" "" 500 0) (by decide)).1
      (by decide) (by decide),
    (C8_quality_filter_floors (VideoInfo.mk "t" "" 2000 30) (by decide)).2.1
      (by decide) (by decide) (by decide),
    (C8_quality_filter_floors (VideoInfo.mk "t" "" 2000 8000) (by decide)).2.2
      (by decide) (by decide) (by decide)⟩

/-- Helper for C9: when the upload step succeeded, `save_raw_json` proceeds
to the insert step. -/
lemma save_eq_afterUpload (u1 u2 : Except String Unit)
    (h : uploadSucceeded u1 u2 = true) (ins : Except String (List String)) :
    ∃ logs, save_raw_json u1 u2 ins = afterUpload ins logs := by
  cases u1 with
  | ok _ => exact ⟨_, rfl⟩
  | error msg =>
    unfold uploadSucceeded at h
    simp only [Bool.and_eq_true, Bool.or_eq_true] at h
    cases u2 with
    | error e => simp at h
    | ok _ =>
      simp only [save_raw_json]
      by_cases h1 : retryFileOptions (strLower msg)
      · rw [if_pos h1]
        exact ⟨_, rfl⟩
      · have h2 : retryTrailingSlash (strLower msg) = true := by
          rcases h.1 with hx | hx
          · exact absurd hx h1
          · exact hx
        rw [if_neg h1, if_pos h2]
        exact ⟨_, rfl⟩

/-- Helper for C9: when the upload step failed, `save_raw_json` returns no
job id. -/
lemma save_none_of_upload_failed (u1 u2 : Except String Unit)
    (h : uploadSucceeded u1 u2 = false) (ins : Except String (List String)) :
    (save_raw_json u1 u2 ins).1 = none := by
  cases u1 with
  | ok _ => simp [uploadSucceeded] at h
  | error msg =>
    unfold uploadSucceeded at h
    simp only [save_raw_json]
    by_cases h1 : retryFileOptions (strLower msg)
    · rw [if_pos h1]
      cases u2 with
      | ok _ => simp [h1] at h
      | error e => rfl
    · by_cases h2 : retryTrailingSlash (strLower msg)
      · rw [if_neg h1, if_pos h2]
        cases u2 with
        | ok _ => simp [h1, h2] at h
        | error e => rfl
      · rw [if_neg h1, if_neg h2]
        by_cases h3 : (strContains (strLower msg) "bucket" &&
            (strContains (strLower msg) "not found" ||
              strContains (strLower msg) "does not exist")) = true
        · rw [if_pos h3]
        · rw [if_neg h3]
          by_cases h4 : (strContains (strLower msg) "row-level security" ||
              strContains (strLower msg) "violates row-level security policy")
              = true
          · rw [if_pos h4]
          · rw [if_neg h4]

/-- C9: `save_raw_json` returns a job id only when the upload and the
PENDING queue-row insert both succeed (the id being the inserted row's id);
when the upload succeeds but the insert raises, or returns no row, the
result is no job id together with the log line that surfaces the
blob-orphaned partial-failure state. -/
theorem C9_save_raw_json_contract :
    (∀ (u1 u2 : Except String Unit) (ins : Except String (List String))
       (jid : String),
      (save_raw_json u1 u2 ins).1 = some jid →
      uploadSucceeded u1 u2 = true ∧
        ∃ rows, ins = .ok rows ∧ rows.head? = some jid) ∧
    (∀ (u1 u2 : Except String Unit) (msg : String),
      uploadSucceeded u1 u2 = true →
      (save_raw_json u1 u2 (.error msg)).1 = none ∧
        "WARNING: File was uploaded to storage but job was NOT queued!"
          ∈ (save_raw_json u1 u2 (.error msg)).2) ∧
    (∀ u1 u2 : Except String Unit,
      uploadSucceeded u1 u2 = true →
      (save_raw_json u1 u2 (.ok [])).1 = none ∧
        "File uploaded to storage but job queue entry failed!"
          ∈ (save_raw_json u1 u2 (.ok [])).2) ∧
    (∀ (u1 u2 : Except String Unit) (jid : String) (rest : List String),
      uploadSucceeded u1 u2 = true →
      (save_raw_json u1 u2 (.ok (jid :: rest))).1 = some jid) := by
  refine ⟨?_, ?_, ?_, ?_⟩
  · intro u1 u2 ins jid hres
    by_cases hup : uploadSucceeded u1 u2 = true
    · refine ⟨hup, ?_⟩
      obtain ⟨logs, heq⟩ := save_eq_afterUpload u1 u2 hup ins
      rw [heq] at hres
      cases ins with
      | error e => simp [afterUpload] at hres
      | ok rows =>
        cases hrows : rows.head? with
        | none => simp [afterUpload, hrows] at hres
        | some j =>
          simp only [afterUpload, hrows] at hres
          exact ⟨rows, rfl, by rw [hrows, hres]⟩
    · rw [save_none_of_upload_failed u1 u2 (by simpa using hup) ins] at hres
      exact absurd hres (by simp)
  · intro u1 u2 msg hup
    obtain ⟨logs, heq⟩ := save_eq_afterUpload u1 u2 hup (.error msg)
    rw [heq]
    exact ⟨rfl, by simp [afterUpload]⟩
  · intro u1 u2 hup
    obtain ⟨logs, heq⟩ := save_eq_afterUpload u1 u2 hup (.ok [])
    rw [heq]
    exact ⟨rfl, by simp [afterUpload]⟩
  · intro u1 u2 jid rest hup
    obtain ⟨logs, heq⟩ := save_eq_afterUpload u1 u2 hup (.ok (jid :: rest))
    rw [heq]
    rfl

/-- C9 witness: with a successful upload, an insert exception yields no job
id and the orphaned-blob warning; an insert that returns no rows also yields
no job id; an insert returning row id `job1` yields `some "job1"`; and the
only-if direction applied to that successful run recovers the inserted
row. -/
theorem C9_save_raw_json_contract_witness :
    (uploadSucceeded (.ok ()) (.ok ()) = true ∧
      ∃ rows, (.ok ["job1"] : Except String (List String)) = .ok rows ∧
        rows.head? = some "job1") ∧
    ((save_raw_json (.ok ()) (.ok ()) (.error "db down")).1 = none ∧
      "WARNING: File was uploaded to storage but job was NOT queued!"
        ∈ (save_raw_json (.ok ()) (.ok ()) (.error "db down")).2) ∧
    ((save_raw_json (.ok ()) (.ok ()) (.ok [])).1 = none ∧
      "File uploaded to storage but job queue entry failed!"
        ∈ (save_raw_json (.ok ()) (.ok ()) (.ok [])).2) ∧
    (save_raw_json (.ok ()) (.ok ()) (.ok ["job1"])).1 = some "job1" :=
  ⟨C9_save_raw_json_contract.1 (.ok ()) (.ok ()) (.ok ["job1"]) "job1" rfl,
    C9_save_raw_json_contract.2.1 (.ok ()) (.ok ()) "db down" rfl,
    C9_save_raw_json_contract.2.2.1 (.ok ()) (.ok ()) rfl,
    C9_save_raw_json_contract.2.2.2 (.ok ()) (.ok ()) "job1" [] rfl⟩

/-- C4: the location cascade is strict — a truthy `location_override` is
returned alone, regardless of metadata keywords; otherwise the sorted set of
gazetteer districts matching title+description; otherwise the same over the
transcript; otherwise the districts mentioned in at least 3 distinct
comments (each comment counted once per district), so fewer than 3
qualifying comments contribute nothing; otherwise `["State_Wide"]`. -/
theorem C4_location_cascade :
    (∀ (gaz : List District) (p : Payload) (s : String),
      p.location_override = some (Sum.inl s) → s ≠ "" →
      detect_location gaz p = [s]) ∧
    (∀ (gaz : List District) (p : Payload),
      overrideResult p.location_override = none → gaz ≠ [] →
      metaTier gaz p ≠ [] →
      detect_location gaz p = sortedDedup (metaTier gaz p)) ∧
    (∀ (gaz : List District) (p : Payload),
      overrideResult p.location_override = none → gaz ≠ [] →
      metaTier gaz p = [] → transcriptTier gaz p ≠ [] →
      detect_location gaz p = sortedDedup (transcriptTier gaz p)) ∧
    (∀ (gaz : List District) (p : Payload),
      overrideResult p.location_override = none → gaz ≠ [] →
      metaTier gaz p = [] → transcriptTier gaz p = [] →
      detect_location gaz p =
        (if crowdTier gaz (commentsOf p) ≠ [] then
          sortedDedup (crowdTier gaz (commentsOf p))
        else ["State_Wide"])) ∧
    (∀ (gaz : List District) (comments : List Item) (name : String),
      name ∈ crowdTier gaz comments ↔
        ∃ d ∈ gaz, d.name = name ∧ 3 ≤ mentionCount comments d) := by
  refine ⟨?_, ?_, ?_, ?_, ?_⟩
  · intro gaz p s hov hs
    unfold detect_location
    rw [hov]
    simp only [overrideResult]
    rw [if_neg hs]
  · intro gaz p hov hgaz hmeta
    unfold detect_location
    rw [hov]
    rw [if_neg (by simpa using hgaz), if_pos hmeta]
  · intro gaz p hov hgaz hmeta htr
    unfold detect_location
    rw [hov]
    rw [if_neg (by simpa using hgaz), if_neg (by simpa using hmeta),
      if_pos htr]
  · intro gaz p hov hgaz hmeta htr
    unfold detect_location
    rw [hov]
    rw [if_neg (by simpa using hgaz), if_neg (by simpa using hmeta),
      if_neg (by simpa using htr)]
  · intro gaz comments name
    simp [crowdTier, List.mem_filter]
    constructor
    · rintro ⟨d, ⟨hd, hm⟩, hn⟩
      exact ⟨d, hd, hn, hm⟩
    · rintro ⟨d, hd, hn, hm⟩
      exact ⟨d, ⟨hd, hm⟩, hn⟩

/-- C4 witness: over a three-district gazetteer, an override `"Chennai"`
wins despite a conflicting `"madurai"` metadata keyword; two comments
mentioning Salem produce `["State_Wide"]`; three produce `["Salem"]`; and
`"Salem"` is in the crowd tier of the three-comment payload via the ≥3
characterization. -/
theorem C4_location_cascade_witness :
    detect_location
        [⟨"Chennai", ["chennai"], ["Ch1"]⟩, ⟨"Madurai", ["madurai"], ["Ma1"]⟩,
         ⟨"Salem", ["salem"], ["Sa1"]⟩]
        ⟨⟨"", "", "madurai rally", "", "", ""⟩, "", [], [], [],
          some (Sum.inl "Chennai"), none⟩ = ["Chennai"] ∧
    detect_location
        [⟨"Chennai", ["chennai"], ["Ch1"]⟩, ⟨"Madurai", ["madurai"], ["Ma1"]⟩,
         ⟨"Salem", ["salem"], ["Sa1"]⟩]
        ⟨⟨"", "", "", "", "", ""⟩, "", [],
          [.istr "salem one", .istr "salem two"], [], none, none⟩
      = ["State_Wide"] ∧
    detect_location
        [⟨"Chennai", ["chennai"], ["Ch1"]⟩, ⟨"Madurai", ["madurai"], ["Ma1"]⟩,
         ⟨"Salem", ["salem"], ["Sa1"]⟩]
        ⟨⟨"", "", "", "", "", ""⟩, "", [],
          [.istr "salem one", .istr "salem two", .istr "salem three"], [],
          none, none⟩
      = ["Salem"] ∧
    "Salem" ∈ crowdTier
        [⟨"Chennai", ["chennai"], ["Ch1"]⟩, ⟨"Madurai", ["madurai"], ["Ma1"]⟩,
         ⟨"Salem", ["salem"], ["Sa1"]⟩]
        (commentsOf ⟨⟨"", "", "", "", "", ""⟩, "", [],
          [.istr "salem one", .istr "salem two", .istr "salem three"], [],
          none, none⟩) := by
  refine ⟨?_, ?_, ?_, ?_⟩
  · exact C4_location_cascade.1 _ _ "Chennai" rfl (by decide)
  · rw [C4_location_cascade.2.2.2.1
      [⟨"Chennai", ["chennai"], ["Ch1"]⟩, ⟨"Madurai", ["madurai"], ["Ma1"]⟩,
         ⟨"Salem", ["salem"], ["Sa1"]⟩]
      ⟨⟨"", "", "", "", "", ""⟩, "", [],
          [.istr "salem one", .istr "salem two"], [], none, none⟩ rfl (by decide) (by decide) (by decide)]
    rw [if_neg (by decide)]
  · rw [C4_location_cascade.2.2.2.1
      [⟨"Chennai", ["chennai"], ["Ch1"]⟩, ⟨"Madurai", ["madurai"], ["Ma1"]⟩,
         ⟨"Salem", ["salem"], ["Sa1"]⟩]
      ⟨⟨"", "", "", "", "", ""⟩, "", [],
          [.istr "salem one", .istr "salem two", .istr "salem three"], [],
          none, none⟩ rfl (by decide) (by decide) (by decide)]
    rw [if_pos (by decide)]
    decide
  · exact (C4_location_cascade.2.2.2.2 _ _ "Salem").mpr
      ⟨⟨"Salem", ["salem"], ["Sa1"]⟩, by decide, rfl, by decide⟩

/-- Helper for C6: job lookup after a status update. -/
lemma find_job_update (w : World) (jid status : String) :
    (update_job_status w jid status).jobs.find? (fun j => j.id == jid)
      = (w.jobs.find? (fun j => j.id == jid)).map
          (fun j => if j.id == jid then { j with status := status } else j) := by
  simp only [update_job_status]
  rw [List.find?_map]
  have hfun : ((fun j => j.id == jid) ∘ fun (j : JobRow) =>
      if (j.id == jid) = true then { j with status := status } else j)
      = (fun (j : JobRow) => j.id == jid) := by
    funext j
    by_cases h : j.id = jid <;> simp [h]
  rw [hfun]

/-- Helper for C6: two consecutive status updates to the same job collapse
to the last one. -/
lemma update_twice_jobs (w : World) (jid s1 s2 : String) :
    (update_job_status (update_job_status w jid s1) jid s2).jobs
      = (update_job_status w jid s2).jobs := by
  simp only [update_job_status, List.map_map, List.map_inj_left]
  intro j _
  by_cases h : j.id = jid <;> simp [h]

/-- Helper for C6/C10: when the job is found with a nonempty file path and
the payload downloads, `process_job` runs the post-download tail on the
PROCESSING world. -/
lemma process_job_found (cfg : Config) (env : Env) (jid : String) (w : World)
    (job : JobRow) (fp : String) (data : Payload)
    (hjob : w.jobs.find? (fun j => j.id == jid) = some job)
    (hfp : job.file_path ≠ "")
    (hst : w.storage.find? (fun kv => kv.1 == job.file_path) = some (fp, data)) :
    process_job cfg env jid w
      = processTail cfg env jid (update_job_status w jid "PROCESSING")
          job.file_path data := by
  have hj : (job.id == jid) = true := by
    have h0 := List.find?_some hjob
    exact h0
  have hj' : job.id = jid := by simpa using hj
  have h1 : (update_job_status w jid "PROCESSING").jobs.find?
        (fun j => j.id == jid) = some { job with status := "PROCESSING" } := by
    rw [find_job_update, hjob]
    simp [hj']
  simp only [process_job]
  split
  · next heq =>
    rw [h1] at heq
    exact absurd heq (by simp)
  · next j heq =>
    rw [h1] at heq
    have hjeq : j = { job with status := "PROCESSING" } :=
      (Option.some.inj heq).symm
    have hfp2 : j.file_path = job.file_path := by rw [hjeq]
    rw [hfp2, if_neg hfp]
    have hst2 : (update_job_status w jid "PROCESSING").storage.find?
        (fun kv => kv.1 == job.file_path) = some (fp, data) := hst
    split
    · next heq2 =>
      rw [hst2] at heq2
      exact absurd heq2 (by simp)
    · next kv heq2 =>
      rw [hst2] at heq2
      have hkv : kv = (fp, data) := (Option.some.inj heq2).symm
      subst hkv
      rfl

/-- C6: with deduplication (and metrics) enabled, processing a job whose
payload's content id already has a `processed_content` row is a no-op: the
job is marked DONE, a `duplicate_skipped` metric is emitted, and the
predictions table, the dedup ledger, the DLQ and the object store are
untouched; `process_job` returns true. -/
theorem C6_duplicate_skip_noop :
    ∀ (cfg : Config) (env : Env) (jid : String) (w : World) (job : JobRow)
      (fp : String) (data : Payload),
      cfg.dedup = true → cfg.metrics = true →
      w.jobs.find? (fun j => j.id == jid) = some job →
      job.file_path ≠ "" →
      w.storage.find? (fun kv => kv.1 == job.file_path) = some (fp, data) →
      w.processed.any (fun r => r.content_id == get_content_id env data)
        = true →
      process_job cfg env jid w =
        ({ w with
            jobs := (update_job_status w jid "DONE").jobs
            metrics := w.metrics ++
              [{ metric_name := "duplicate_skipped", metric_value := 1
                 dimensions := [("content_type", get_content_type data)] }] },
          true) := by
  intro cfg env jid w job fp data hd hm hjob hfp hst hdup
  rw [process_job_found cfg env jid w job fp data hjob hfp hst]
  have hdup2 : is_duplicate_content cfg
      (update_job_status w jid "PROCESSING")
      (get_content_id env data) = true := by
    simp only [is_duplicate_content, update_job_status, hd, Bool.true_and]
    exact hdup
  simp only [processTail]
  rw [if_pos hdup2]
  simp only [log_metric, hm, if_pos, update_job_status]
  rw [Prod.mk.injEq]
  refine ⟨?_, rfl⟩
  rw [World.mk.injEq]
  refine ⟨?_, rfl, rfl, rfl, rfl, rfl⟩
  simp only [List.map_map, List.map_inj_left]
  intro x _
  by_cases h : x.id = jid <;> simp [h]

/-- C6 witness: a concrete one-job world whose payload content id `c1`
already has a dedup-ledger row — processing marks the job DONE, logs the
`duplicate_skipped` metric and leaves every other table unchanged. -/
theorem C6_duplicate_skip_noop_witness :
    process_job ⟨true, true, true, 5/100, "v1"⟩
        ⟨fun _ => Label.neutral, fun s => s, fun _ => "m", [], [], "ts", 0⟩
        "j1"
        ⟨[⟨"j1", "PENDING", "f1"⟩],
         [("f1", ⟨⟨"c1", "", "", "", "", ""⟩, "", [], [], [], none, none⟩)],
         [⟨"c1", "youtube", "Unknown", "f1", 0, "t"⟩], [], [], []⟩
      = (⟨(update_job_status
              ⟨[⟨"j1", "PENDING", "f1"⟩],
               [("f1", ⟨⟨"c1", "", "", "", "", ""⟩, "", [], [], [], none,
                  none⟩)],
               [⟨"c1", "youtube", "Unknown", "f1", 0, "t"⟩], [], [], []⟩
              "j1" "DONE").jobs,
            [("f1", ⟨⟨"c1", "", "", "", "", ""⟩, "", [], [], [],
              none, none⟩)],
            [⟨"c1", "youtube", "Unknown", "f1", 0, "t"⟩],
            [], [],
            [] ++ [⟨"duplicate_skipped", 1,
              [("content_type", get_content_type
                ⟨⟨"c1", "", "", "", "", ""⟩, "", [], [], [], none,
                  none⟩)]⟩]⟩,
          true) :=
  C6_duplicate_skip_noop ⟨true, true, true, 5/100, "v1"⟩
    ⟨fun _ => Label.neutral, fun s => s, fun _ => "m", [], [], "ts", 0⟩
    "j1"
    ⟨[⟨"j1", "PENDING", "f1"⟩],
     [("f1", ⟨⟨"c1", "", "", "", "", ""⟩, "", [], [], [], none, none⟩)],
     [⟨"c1", "youtube", "Unknown", "f1", 0, "t"⟩], [], [], []⟩
    ⟨"j1", "PENDING", "f1"⟩ "f1"
    ⟨⟨"c1", "", "", "", "", ""⟩, "", [], [], [], none, none⟩
    rfl rfl rfl (by decide) rfl rfl

/-- Changing only `quality_signals` leaves the content id unchanged. -/
lemma setQS_content_id (env : Env) (p : Payload) (qs' : Option ℚ) :
    get_content_id env { p with quality_signals := qs' }
      = get_content_id env p := rfl

/-- Changing only `quality_signals` leaves the content type unchanged. -/
lemma setQS_content_type (p : Payload) (qs' : Option ℚ) :
    get_content_type { p with quality_signals := qs' }
      = get_content_type p := rfl

/-- Changing only `quality_signals` leaves the detected alliance unchanged. -/
lemma setQS_alliance (al : List (String × List String)) (p : Payload)
    (qs' : Option ℚ) :
    detect_alliance al { p with quality_signals := qs' }
      = detect_alliance al p := rfl

/-- Changing only `quality_signals` leaves the detected locations
unchanged. -/
lemma setQS_location (gaz : List District) (p : Payload) (qs' : Option ℚ) :
    detect_location gaz { p with quality_signals := qs' }
      = detect_location gaz p := rfl

lemma setQS_auth (p : Payload) (qs' : Option ℚ) :
    ({ p with quality_signals := qs' } : Payload).authoritative_content
      = p.authoritative_content := rfl

lemma setQS_user (p : Payload) (qs' : Option ℚ) :
    ({ p with quality_signals := qs' } : Payload).user_comments
      = p.user_comments := rfl

lemma setQS_comments (p : Payload) (qs' : Option ℚ) :
    ({ p with quality_signals := qs' } : Payload).comments = p.comments := rfl

/-- Core of C10: the post-download tail persists identical predictions for
payloads that differ only in `quality_signals`, any `MAX_INFLUENCE` knob,
and worlds agreeing on the dedup ledger and the predictions table. -/
lemma processTail_predictions_independent (cfg : Config) (env : Env)
    (jid : String) (w w' : World) (fp fp' : String) (mi' : ℚ)
    (qs' : Option ℚ) (data : Payload)
    (hproc : w'.processed = w.processed)
    (hpred : w'.predictions = w.predictions) :
    ((processTail { cfg with max_influence := mi' } env jid w' fp'
        { data with quality_signals := qs' }).1).predictions
      = ((processTail cfg env jid w fp data).1).predictions := by
  simp only [processTail, setQS_content_id, setQS_content_type,
    setQS_alliance, setQS_location, setQS_auth, setQS_user, setQS_comments]
  have hdup_eq : is_duplicate_content { cfg with max_influence := mi' } w'
      (get_content_id env data)
      = is_duplicate_content cfg w (get_content_id env data) := by
    simp [is_duplicate_content, hproc]
  rw [hdup_eq]
  by_cases hdup : is_duplicate_content cfg w (get_content_id env data) = true
  · rw [if_pos hdup, if_pos hdup]
    by_cases hm : cfg.metrics <;>
      simp [log_metric, hm, update_job_status, hpred]
  · rw [if_neg hdup, if_neg hdup]
    by_cases hempty : data.authoritative_content = [] ∧
        (if data.user_comments = [] ∧ data.comments ≠ [] then data.comments
         else data.user_comments) = []
    · rw [if_pos hempty, if_pos hempty]
      simp [update_job_status, hpred]
    · rw [if_neg hempty, if_neg hempty]
      by_cases hm : cfg.metrics <;> by_cases hd : cfg.dedup <;>
        simp [log_metric, mark_content_processed, update_job_status, hm, hd,
          hpred]

/-- C10: two payloads that differ only in `quality_signals` (including the
confidence multiplier), processed under any `MAX_INFLUENCE_PER_SOURCE`
setting, persist identical constituency-prediction tables: neither
`apply_influence_cap` nor the confidence multiplier is applied on the
persistence path. -/
theorem C10_quality_signals_no_influence :
    ∀ (cfg : Config) (env : Env) (jid : String) (w w' : World) (mi' : ℚ)
      (qs' : Option ℚ) (job : JobRow) (fp fp' : String) (data : Payload),
      w'.jobs = w.jobs → w'.processed = w.processed →
      w'.predictions = w.predictions →
      w.jobs.find? (fun j => j.id == jid) = some job →
      job.file_path ≠ "" →
      w.storage.find? (fun kv => kv.1 == job.file_path) = some (fp, data) →
      w'.storage.find? (fun kv => kv.1 == job.file_path)
        = some (fp', { data with quality_signals := qs' }) →
      ((process_job { cfg with max_influence := mi' } env jid w').1).predictions
        = ((process_job cfg env jid w).1).predictions := by
  intro cfg env jid w w' mi' qs' job fp fp' data hjobs hproc hpred hjob hfp
    hst hst'
  have hjob' : w'.jobs.find? (fun j => j.id == jid) = some job := by
    rw [hjobs]
    exact hjob
  rw [process_job_found { cfg with max_influence := mi' } env jid w' job fp'
    { data with quality_signals := qs' } hjob' hfp hst']
  rw [process_job_found cfg env jid w job fp data hjob hfp hst]
  exact processTail_predictions_independent cfg env jid
    (update_job_status w jid "PROCESSING")
    (update_job_status w' jid "PROCESSING") job.file_path job.file_path mi'
    qs' data (by simp [update_job_status, hproc])
    (by simp [update_job_status, hpred])

/-- C10 witness: a one-job world processed twice — once with
`confidence_multiplier = 0.9` in `quality_signals` and
`MAX_INFLUENCE_PER_SOURCE = 0.5`, once with no quality signals and the
default cap — yields identical predictions tables. -/
theorem C10_quality_signals_no_influence_witness :
    ((process_job ⟨true, true, true, 1/2, "v1"⟩
        ⟨fun _ => Label.neutral, fun s => s, fun _ => "m", [], [], "ts", 0⟩
        "j1"
        ⟨[⟨"j1", "PENDING", "f1"⟩],
         [("f1", ⟨⟨"c1", "", "", "", "", ""⟩, "", [], [], [], none,
            some (9/10)⟩)],
         [], [], [], []⟩).1).predictions
      = ((process_job ⟨true, true, true, 5/100, "v1"⟩
          ⟨fun _ => Label.neutral, fun s => s, fun _ => "m", [], [], "ts", 0⟩
          "j1"
          ⟨[⟨"j1", "PENDING", "f1"⟩],
           [("f1", ⟨⟨"c1", "", "", "", "", ""⟩, "", [], [], [], none, none⟩)],
           [], [], [], []⟩).1).predictions :=
  C10_quality_signals_no_influence ⟨true, true, true, 5/100, "v1"⟩
    ⟨fun _ => Label.neutral, fun s => s, fun _ => "m", [], [], "ts", 0⟩
    "j1"
    ⟨[⟨"j1", "PENDING", "f1"⟩],
     [("f1", ⟨⟨"c1", "", "", "", "", ""⟩, "", [], [], [], none, none⟩)],
     [], [], [], []⟩
    ⟨[⟨"j1", "PENDING", "f1"⟩],
     [("f1", ⟨⟨"c1", "", "", "", "", ""⟩, "", [], [], [], none,
        some (9/10)⟩)],
     [], [], [], []⟩
    (1/2) (some (9/10)) ⟨"j1", "PENDING", "f1"⟩ "f1" "f1"
    ⟨⟨"c1", "", "", "", "", ""⟩, "", [], [], [], none, none⟩
    rfl rfl rfl rfl (by decide) rfl rfl

/-- C7 witness: from base delay 2, current delay 4, max delay 60, threshold
5: a 429 doubles the delay to `min(8, 60)`, and five consecutive 2xx
responses decay the delay to `max(2, 3.6)`. -/
theorem C7_adaptive_rate_limiter_witness :
    ((handleResponse ⟨2, 4, 60, 0, 5⟩ 429).current_delay = min (2 * 4) 60 ∧
      (handleResponse ⟨2, 4, 60, 0, 5⟩ 429).consecutive_successes = 0) ∧
    handleAll ⟨2, 4, 60, 0, 5⟩ [200, 201, 204, 299, 200]
      = ⟨2, max 2 (4 * (9/10)), 60, 0, 5⟩ := by
  refine ⟨C7_adaptive_rate_limiter.1 _,
    C7_adaptive_rate_limiter.2 _ _ (by decide) rfl rfl (by norm_num)
      (by norm_num)⟩

end PollPulse
